import Mathlib

/-!
Shallow embedding of the `azure-queue-subscriber` Consumer (src/index.js).

The consumer is an event-emitting polling loop.  We model one pass of the
response handler `_handleQueueServiceResponse` (and the helpers `_processMessage`,
`_deleteMessage`, `_handleError`, `_log`) as pure functions that produce a
trace of observable actions (emitted events, handler invocations, delete calls,
fetch calls, and poll continuations) together with the rejection value of the
returned promise, if any.  The user handler and the queue service's delete
call are oracles supplied as function parameters, since they are the external
collaborators of the loop.

Modelling conventions:
  * `Action.pollNow` records a direct `subscriber._poll()` invocation;
    `Action.schedulePoll d` records `setTimeout(() => subscriber._poll(), d)`.
  * The second component of a result is `some e` when the modelled async
    function returns a promise that rejects with `e`; in the source nothing
    awaits or catches that promise (src/index.js lines 161-168), so a
    `some` outcome is an unhandled promise rejection escaping the cycle.
  * The consumer is modelled with `useLogtailLogger` left at its default
    (`false`), hence `loggerService` is `null`; `_log` (lines 343-352) then
    skips its guarded body, throws a `TypeError` at the unguarded
    `this.loggerService.flush()` call, catches it, and emits `logtail_error`.
-/

namespace AzureQueueSubscriber

/-- A received queue message (the fields of `receivedMessageItems` entries
that src/index.js reads: `messageId`, `popReceipt`, `dequeueCount`,
`messageText`). -/
structure Message where
  messageId : String
  popReceipt : String
  dequeueCount : Nat
  messageText : String
deriving DecidableEq

/-- A JavaScript error value as observed by the consumer: its `name`,
`message`, and the `statusCode` / `code` fields read by
`isAuthenticationError` (src/index.js line 69). -/
structure JsError where
  name : String
  message : String
  statusCode : Option Nat := none
  code : Option String := none
deriving DecidableEq

/-- Constructing `new QueueServiceError(msg)` (src/index.js lines 10-15):
the resulting error's `name` field is the class name "QueueServiceError". -/
def QueueServiceError (msg : String) : JsError :=
  { name := "QueueServiceError", message := msg }

/-- `isAuthenticationError` (src/index.js lines 68-70):
`err.statusCode === 403 || err.code === "CredentialsError"`. -/
def isAuthenticationError (e : JsError) : Bool :=
  e.statusCode == some 403 || e.code == some "CredentialsError"

/-- Behaviour of the user-supplied `handleMessage(message, done)` on a given
message: it returns normally after calling `done()` with no error, calls
`done(err)` with a non-empty error, or throws synchronously. -/
inductive HandlerBehavior where
  | ok
  | doneErr (e : JsError)
  | raise (e : JsError)
deriving DecidableEq

/-- An argument attached to an emitted event. -/
inductive Arg where
  | msg (m : Message)
  | err (e : JsError)
  | str (s : String)
deriving DecidableEq

/-- An observable action of the consumer. -/
inductive Action where
  | emit (eventName : String) (args : List Arg)
  | handlerCall (m : Message)
  | deleteCall (messageId : String) (popReceipt : String)
  | fetchCall (numberOfMessages : Nat)
  | pollNow
  | schedulePoll (delayMs : Nat)
deriving DecidableEq

/-- The consumer's configuration and run-state fields set in the constructor
(src/index.js lines 82-102), restricted to the fields the poll cycle reads.
`maximumRetries` is `options.maximumRetries || null`, so a falsy option
yields `none`. -/
structure Consumer where
  batchSize : Nat := 1
  pollDelaySeconds : Nat := 1
  maximumExecutionTimeSeconds : Nat := 10
  authenticationErrorTimeoutSeconds : Nat := 10
  visibilityTimeout : Option Nat := none
  maximumRetries : Option Nat := none
  stopped : Bool := true
  isWaiting : Bool := false
deriving DecidableEq

/-- The `TypeError` raised at runtime by `this.loggerService.flush()` in
`_log` (src/index.js line 348) when `loggerService` is null. -/
def nullFlushTypeError : JsError :=
  { name := "TypeError", message := "Cannot read properties of null" }

/-- One call of `_log` (src/index.js lines 343-352) with `loggerService`
null: the `if (this.loggerService)` body is skipped, the unguarded
`this.loggerService.flush()` throws, and the catch emits `logtail_error`. -/
def logCall : List Action :=
  [Action.emit "logtail_error" [Arg.err nullFlushTypeError]]

/-- `_deleteMessage` (src/index.js lines 312-336): calls
`queueService.deleteMessage(messageId, popReceipt)`; on failure (the oracle
`deleteResult` returns `some e`) it throws a `QueueServiceError` wrapping the
failure message.  (The logger block is skipped since `loggerService` is
null.) -/
def deleteMessage (deleteResult : Message → Option JsError) (m : Message) :
    List Action × Option JsError :=
  match deleteResult m with
  | none => ([Action.deleteCall m.messageId m.popReceipt], none)
  | some e =>
      ([Action.deleteCall m.messageId m.popReceipt],
        some (QueueServiceError ("Queue service delete message failed: " ++ e.message)))

/-- `_handleError` (src/index.js lines 289-306) with `loggerService` null:
classifies the error by string comparison of `err.name` against the class
name "QueueServiceError" and emits `error` or `processing_error`
accordingly, carrying the error and the message. -/
def handleError (e : JsError) (m : Message) : List Action :=
  if e.name = "QueueServiceError" then
    [Action.emit "error" [Arg.err e, Arg.msg m]]
  else
    [Action.emit "processing_error" [Arg.err e, Arg.msg m]]

/-- The wrapping performed by the completion callback in `_processMessage`
(src/index.js lines 263-271): `done(err)` with a non-empty error rejects
with `new Error("Unexpected message handler failure: " + err.message)`,
whose `name` is "Error". -/
def wrapDoneError (e : JsError) : JsError :=
  { name := "Error", message := "Unexpected message handler failure: " ++ e.message }

/-- `_processMessage` (src/index.js lines 258-282): emit `message_received`,
invoke the handler; on success delete the message and emit
`message_processed`; on any failure call `_handleError` and rethrow (the
second component is the rethrown error). -/
def processMessage (handler : Message → HandlerBehavior)
    (deleteResult : Message → Option JsError) (m : Message) :
    List Action × Option JsError :=
  let received := [Action.emit "message_received" [Arg.msg m], Action.handlerCall m]
  match handler m with
  | HandlerBehavior.raise e => (received ++ handleError e m, some e)
  | HandlerBehavior.doneErr e =>
      (received ++ handleError (wrapDoneError e) m, some (wrapDoneError e))
  | HandlerBehavior.ok =>
      match deleteMessage deleteResult m with
      | (dt, none) =>
          (received ++ dt ++ [Action.emit "message_processed" [Arg.msg m]], none)
      | (dt, some de) => (received ++ dt ++ handleError de m, some de)

/-- The `catch` block of the dispatch loop (src/index.js lines 222-233):
switch on `err.name`; a "QueueServiceError" emits `error`, anything else
emits `processing_error`, and either way `subscriber._poll()` is invoked. -/
def catchClause (e : JsError) (m : Message) : List Action :=
  if e.name = "QueueServiceError" then
    [Action.emit "error" [Arg.err e, Arg.msg m], Action.pollNow]
  else
    [Action.emit "processing_error" [Arg.err e, Arg.msg m], Action.pollNow]

/-- The discard reason string built at src/index.js line 205. -/
def discardReason (m : Message) : String :=
  "message failed after " ++ toString m.dequeueCount ++ " times and will be deleted"

/-- How the `for` loop over `receivedMessageItems` terminates: it either
runs off the end of the batch, or a `return` statement exits
`_handleQueueServiceResponse` early (carrying the rejection of the returned
promise, if any). -/
inductive LoopExit where
  | finished
  | earlyReturn (rejection : Option JsError)
deriving DecidableEq

/-- The `for (const message of response.receivedMessageItems)` loop of
`_handleQueueServiceResponse` (src/index.js lines 195-234):
  * `maximumRetries` unset: `return this._processMessage(message)` — the
    un-awaited promise is returned, ending the function (line 197);
  * `dequeueCount < maximumRetries`: `await _processMessage`, emit
    `message_processed` a second time, `_poll()`, and `return` (lines
    198-203); a rejection of `_processMessage` jumps to the catch block
    instead and the loop continues;
  * otherwise (retries exhausted): `await _deleteMessage`, `_log`, emit
    `delete_failed_message` with the reason string, `_poll()`, and continue
    with the next message (lines 204-221); a delete failure jumps to the
    catch block and the loop continues. -/
def dispatchLoop (c : Consumer) (handler : Message → HandlerBehavior)
    (deleteResult : Message → Option JsError) :
    List Message → List Action × LoopExit
  | [] => ([], LoopExit.finished)
  | m :: rest =>
    match c.maximumRetries with
    | none =>
        match processMessage handler deleteResult m with
        | (t, r) => (t, LoopExit.earlyReturn r)
    | some maxR =>
        if m.dequeueCount < maxR then
          match processMessage handler deleteResult m with
          | (t, none) =>
              (t ++ [Action.emit "message_processed" [Arg.msg m], Action.pollNow],
                LoopExit.earlyReturn none)
          | (t, some e) =>
              match dispatchLoop c handler deleteResult rest with
              | (t2, ex) => (t ++ catchClause e m ++ t2, ex)
        else
          match deleteMessage deleteResult m with
          | (dt, none) =>
              match dispatchLoop c handler deleteResult rest with
              | (t2, ex) =>
                  (dt ++ logCall ++
                    [Action.emit "delete_failed_message" [Arg.str (discardReason m)],
                      Action.pollNow] ++ t2, ex)
          | (dt, some e) =>
              match dispatchLoop c handler deleteResult rest with
              | (t2, ex) => (dt ++ catchClause e m ++ t2, ex)

/-- Outcome of one fetch as seen by `_poll` (src/index.js lines 161-168):
`receiveMessages` either resolves (then `_handleQueueServiceResponse(null,
response)` is called) or rejects (then `_handleQueueServiceResponse(err,
null)` is called). -/
inductive FetchResult where
  | success (receivedMessageItems : List Message)
  | failure (e : JsError)
deriving DecidableEq

/-- `_handleQueueServiceResponse` (src/index.js lines 179-252):
  * fetch failure: emit `error` with a wrapping `QueueServiceError`
    (lines 181-188); since `response` is null, fall to the `else if` /
    `else` branches, scheduling a delayed re-poll after
    `authenticationErrorTimeoutSeconds * 1000` ms for authentication errors
    (lines 239-247) and `pollDelaySeconds * 500` ms otherwise (line 250);
  * empty batch: emit the "No messages availabe to be processed" event
    (lines 191-192) and schedule a re-poll after `pollDelaySeconds * 500` ms;
  * non-empty batch: run the dispatch loop; only if the loop finishes
    without an early `return` are `response_processed` emitted and `_poll()`
    invoked (lines 235-238). -/
def handleQueueServiceResponse (c : Consumer) (handler : Message → HandlerBehavior)
    (deleteResult : Message → Option JsError) :
    FetchResult → List Action × Option JsError
  | FetchResult.failure e =>
      let receiveError :=
        Action.emit "error"
          [Arg.err (QueueServiceError ("Queue service failed to recieve a message: " ++ e.message))]
      if isAuthenticationError e then
        ([receiveError, Action.schedulePoll (c.authenticationErrorTimeoutSeconds * 1000)], none)
      else
        ([receiveError, Action.schedulePoll (c.pollDelaySeconds * 500)], none)
  | FetchResult.success [] =>
      ([Action.emit "No messages availabe to be processed" [],
        Action.schedulePoll (c.pollDelaySeconds * 500)], none)
  | FetchResult.success (m :: rest) =>
      match dispatchLoop c handler deleteResult (m :: rest) with
      | (t, LoopExit.finished) =>
          (t ++ [Action.emit "response_processed" [], Action.pollNow], none)
      | (t, LoopExit.earlyReturn r) => (t, r)

/-- `_poll` up to its fetch boundary (src/index.js lines 148-172): set
`isWaiting`, then, if not stopped, emit `starting` and issue the fetch
(`receiveMessages` with `numberOfMessages = batchSize`); if stopped, emit
`stopped` and issue no fetch.  The third component records whether a fetch
was issued; the response continuation is `handleQueueServiceResponse`. -/
def poll (c : Consumer) : Consumer × List Action × Bool :=
  let c2 := { c with isWaiting := true }
  if c2.stopped then
    (c2, [Action.emit "stopped" []], false)
  else
    (c2, [Action.emit "starting" [], Action.fetchCall c.batchSize], true)

/-- `stop` (src/index.js lines 138-143): emit `stopped` immediately, set
`isWaiting` and `stopped`. -/
def stop (c : Consumer) : Consumer × List Action :=
  ({ c with isWaiting := true, stopped := true }, [Action.emit "stopped" []])

/-- `start` (src/index.js lines 126-133): if stopped, `_log` (which emits
`logtail_error`, the logger being null), clear the stopped flag and run
`_poll` up to its fetch boundary; otherwise do nothing. -/
def start (c : Consumer) : Consumer × List Action × Bool :=
  if c.stopped then
    match poll { c with stopped := false } with
    | (c2, t, fetched) => (c2, logCall ++ t, fetched)
  else
    (c, [], false)

/-- The batch-size checks of `validate` (src/index.js lines 30-39), on a
supplied numeric `batchSize` (`none` = option absent/undefined: both range
comparisons are false and the truthiness guard skips the second check).
First check: `batchSize > 30 || batchSize < 1`; second check: a truthy
batch size that is not an integer (`batchSize % 1 !== 0`). -/
def validateBatchSize (batchSize : Option ℚ) : Option String :=
  match batchSize with
  | none => none
  | some x =>
      if 30 < x ∨ x < 1 then some "batchSize must be between 1 and 30."
      else if x ≠ 0 ∧ x.den ≠ 1 then
        some "batchSize must be between 1 and 10 and be a number."
      else none

/-- Boolean recogniser for fetch actions. -/
def Action.isFetch : Action → Bool
  | Action.fetchCall _ => true
  | _ => false

/-- Boolean recogniser for poll continuations (a direct `_poll()` call or a
`setTimeout`-scheduled one). -/
def Action.isPollContinuation : Action → Bool
  | Action.pollNow => true
  | Action.schedulePoll _ => true
  | _ => false

/-- Boolean recogniser for emissions of a given event name. -/
def Action.isEmitNamed (n : String) : Action → Bool
  | Action.emit n2 _ => n2 == n
  | _ => false

/-- Boolean recogniser for delete calls. -/
def Action.isDeleteCall : Action → Bool
  | Action.deleteCall _ _ => true
  | _ => false

/-- Boolean recogniser for handler invocations. -/
def Action.isHandlerCall : Action → Bool
  | Action.handlerCall _ => true
  | _ => false

/-- Whether an emitted event carries the given message among its arguments. -/
def Action.carriesMsg (m : Message) : Action → Bool
  | Action.emit _ args => args.contains (Arg.msg m)
  | _ => false

/-- Number of fetch calls in a trace. -/
def fetchCount (t : List Action) : Nat := (t.filter Action.isFetch).length

/-- The value with which the processing promise of `_processMessage` rejects
for a failing handler behaviour: the thrown error itself for a synchronous
throw, the wrapped error for a `done(err)` completion. -/
def handlerRejection (handler : Message → HandlerBehavior) (m : Message) : JsError :=
  match handler m with
  | HandlerBehavior.raise e => e
  | HandlerBehavior.doneErr e => wrapDoneError e
  | HandlerBehavior.ok => { name := "Error", message := "" }

/-- Concrete fixture consumers and messages used in the concrete theorems. -/
def runningConsumer : Consumer := { stopped := false }

/-- A running consumer with a retry budget of 2. -/
def retryConsumer : Consumer := { maximumRetries := some 2, stopped := false }

/-- Concrete message fixture. -/
def msgA : Message :=
  { messageId := "m1", popReceipt := "pr1", dequeueCount := 1, messageText := "hello" }

/-- Concrete message fixture. -/
def msgB : Message :=
  { messageId := "m2", popReceipt := "pr2", dequeueCount := 1, messageText := "world" }

/-- Concrete retry-exhausted message fixture (dequeue count 3). -/
def msgC : Message :=
  { messageId := "m3", popReceipt := "pr3", dequeueCount := 3, messageText := "spam" }

/-- A plain error (name "Error"). -/
def plainError : JsError := { name := "Error", message := "boom" }

/-- An error whose name is "QueueServiceError". -/
def qseNamedError : JsError := { name := "QueueServiceError", message := "boom" }

/-- A handler that always throws `plainError` synchronously. -/
def alwaysRaise : Message → HandlerBehavior := fun _ => HandlerBehavior.raise plainError

/-- A handler that always throws an error named "QueueServiceError". -/
def raiseQseNamed : Message → HandlerBehavior := fun _ => HandlerBehavior.raise qseNamedError

/-- A handler that always succeeds. -/
def alwaysOk : Message → HandlerBehavior := fun _ => HandlerBehavior.ok

/-- A delete oracle that always succeeds. -/
def deleteOk : Message → Option JsError := fun _ => none

/-- A delete oracle that always fails with `plainError`. -/
def deleteFails : Message → Option JsError := fun _ => some plainError

/-- A freshly constructed consumer (stopped, all defaults). -/
def stoppedConsumer : Consumer := {}

/-- C1: with `maximumRetries` unset, a handler failure while handling a batch
response escapes the poll cycle: `_handleQueueServiceResponse` returns the
un-awaited, uncaught rejection of `_processMessage` (second component
`some plainError`), and its trace contains no poll continuation at all — the
error is not converted into a scheduled next poll and the loop halts without
`stop()` having been called.  This refutes the claim that no exception
escapes and that every error yields an emitted event plus a scheduled next
poll. -/
theorem c1_handler_error_escapes_and_no_repoll :
    handleQueueServiceResponse runningConsumer alwaysRaise deleteOk
        (FetchResult.success [msgA]) =
      ([Action.emit "message_received" [Arg.msg msgA], Action.handlerCall msgA,
        Action.emit "processing_error" [Arg.err plainError, Arg.msg msgA]],
        some plainError) ∧
    (handleQueueServiceResponse runningConsumer alwaysRaise deleteOk
        (FetchResult.success [msgA])).1.all
      (fun a => !(Action.isPollContinuation a)) = true := by
  decide

/-- C2: with `maximumRetries` unset and a two-message batch whose first
message fails in the handler, the loop `return`s after the first message:
the second message is never received or handled, `response_processed` is
never emitted, and no next fetch is scheduled.  This refutes the claim that
a failure aborts only that message and that the batch is still exhausted. -/
theorem c2_batch_aborted_by_first_failure :
    handleQueueServiceResponse runningConsumer alwaysRaise deleteOk
        (FetchResult.success [msgA, msgB]) =
      ([Action.emit "message_received" [Arg.msg msgA], Action.handlerCall msgA,
        Action.emit "processing_error" [Arg.err plainError, Arg.msg msgA]],
        some plainError) ∧
    Action.handlerCall msgB ∉
      (handleQueueServiceResponse runningConsumer alwaysRaise deleteOk
        (FetchResult.success [msgA, msgB])).1 ∧
    Action.emit "message_received" [Arg.msg msgB] ∉
      (handleQueueServiceResponse runningConsumer alwaysRaise deleteOk
        (FetchResult.success [msgA, msgB])).1 ∧
    (handleQueueServiceResponse runningConsumer alwaysRaise deleteOk
        (FetchResult.success [msgA, msgB])).1.all
      (fun a => !(Action.isEmitNamed "response_processed" a)) = true ∧
    (handleQueueServiceResponse runningConsumer alwaysRaise deleteOk
        (FetchResult.success [msgA, msgB])).1.all
      (fun a => !(Action.isPollContinuation a)) = true := by
  decide

/-- C4: batch size 1, `maximumRetries` unset, handler and delete both
succeed.  The trace is `message_received`, the handler call, the delete
call, then `message_processed` (exactly once, after the delete) — but
`response_processed` is never emitted and no next fetch is ever scheduled,
because the loop `return`s the `_processMessage` promise.  This refutes the
claimed terminal `response_processed` emission. -/
theorem c4_success_lacks_response_processed :
    handleQueueServiceResponse runningConsumer alwaysOk deleteOk
        (FetchResult.success [msgA]) =
      ([Action.emit "message_received" [Arg.msg msgA], Action.handlerCall msgA,
        Action.deleteCall "m1" "pr1",
        Action.emit "message_processed" [Arg.msg msgA]], none) ∧
    (handleQueueServiceResponse runningConsumer alwaysOk deleteOk
        (FetchResult.success [msgA])).1.all
      (fun a => !(Action.isEmitNamed "response_processed" a)) = true ∧
    (handleQueueServiceResponse runningConsumer alwaysOk deleteOk
        (FetchResult.success [msgA])).1.all
      (fun a => !(Action.isPollContinuation a)) = true := by
  decide

/-- C3 counterexample: a retry-exhausted message (dequeue count 3, budget 2)
whose delete succeeds does produce the discard emission
`delete_failed_message`, but no emitted event of the whole response trace
carries the message itself — the notification carries only the reason
string, refuting the claim that it carries the message and the reason. -/
theorem c3_discard_does_not_carry_message :
    (handleQueueServiceResponse retryConsumer alwaysOk deleteOk
        (FetchResult.success [msgC])).1.all
      (fun a => !(Action.carriesMsg msgC a)) = true ∧
    Action.emit "delete_failed_message" [Arg.str (discardReason msgC)] ∈
      (handleQueueServiceResponse retryConsumer alwaysOk deleteOk
        (FetchResult.success [msgC])).1 := by
  decide

/-- C5 counterexample: a handler that throws an error whose `name` field is
"QueueServiceError" does not produce a `processing_error` emission at all —
`_handleError` classifies it as a queue-service error and emits `error`
instead, refuting the claim for every handler failure. -/
theorem c5_qse_named_raise_skips_processing_error :
    processMessage raiseQseNamed deleteOk msgA =
      ([Action.emit "message_received" [Arg.msg msgA], Action.handlerCall msgA,
        Action.emit "error" [Arg.err qseNamedError, Arg.msg msgA]],
        some qseNamedError) ∧
    (processMessage raiseQseNamed deleteOk msgA).1.all
      (fun a => !(Action.isEmitNamed "processing_error" a)) = true := by
  decide

/-- C9 counterexample: a supplied batch size of 15 lies outside the
inclusive range [1, 10] claimed by the spec, yet the batch-size checks of
`validate` raise nothing (the code's operative bound is 30). -/
theorem c9_batch_size_fifteen_accepted :
    validateBatchSize (some 15) = none ∧ ¬((15 : ℚ) ≤ 10) := by
  constructor
  · decide
  · norm_num

/-- C6: whenever the handler succeeds on a message but the delete call
fails, `_processMessage` emits exactly `message_received`, the handler call,
the delete call, and then an `error` event carrying the wrapping
`QueueServiceError` and the message; no `processing_error` and no
`message_processed` is emitted, and the carried error's `name` is
"QueueServiceError". -/
theorem c6_delete_failure_is_queue_service_error
    (handler : Message → HandlerBehavior) (deleteResult : Message → Option JsError)
    (m : Message) (e : JsError)
    (hok : handler m = HandlerBehavior.ok) (hdel : deleteResult m = some e) :
    processMessage handler deleteResult m =
      ([Action.emit "message_received" [Arg.msg m], Action.handlerCall m,
        Action.deleteCall m.messageId m.popReceipt,
        Action.emit "error"
          [Arg.err (QueueServiceError ("Queue service delete message failed: " ++ e.message)),
            Arg.msg m]],
        some (QueueServiceError ("Queue service delete message failed: " ++ e.message))) ∧
    (processMessage handler deleteResult m).1.all
      (fun a => !(Action.isEmitNamed "processing_error" a)) = true ∧
    (processMessage handler deleteResult m).1.all
      (fun a => !(Action.isEmitNamed "message_processed" a)) = true ∧
    (QueueServiceError ("Queue service delete message failed: " ++ e.message)).name =
      "QueueServiceError" := by
  refine ⟨?_, ?_, ?_, rfl⟩ <;>
    simp [processMessage, hok, deleteMessage, hdel, handleError, QueueServiceError,
      Action.isEmitNamed]

/-- C6 witness: the theorem applied to a concrete handler that succeeds and
a delete oracle that fails with `plainError` on the message `msgA`. -/
theorem c6_witness :
    processMessage alwaysOk deleteFails msgA =
      ([Action.emit "message_received" [Arg.msg msgA], Action.handlerCall msgA,
        Action.deleteCall msgA.messageId msgA.popReceipt,
        Action.emit "error"
          [Arg.err (QueueServiceError
              ("Queue service delete message failed: " ++ plainError.message)),
            Arg.msg msgA]],
        some (QueueServiceError
          ("Queue service delete message failed: " ++ plainError.message))) ∧
    (processMessage alwaysOk deleteFails msgA).1.all
      (fun a => !(Action.isEmitNamed "processing_error" a)) = true ∧
    (processMessage alwaysOk deleteFails msgA).1.all
      (fun a => !(Action.isEmitNamed "message_processed" a)) = true ∧
    (QueueServiceError
      ("Queue service delete message failed: " ++ plainError.message)).name =
      "QueueServiceError" :=
  c6_delete_failure_is_queue_service_error alwaysOk deleteFails msgA plainError rfl rfl

/-- C7: a successful fetch with zero messages makes
`_handleQueueServiceResponse` emit exactly the empty-queue signal and then
schedule the next poll after `pollDelaySeconds * 500` milliseconds; no
handler call, delete call or immediate poll occurs, and the returned
promise resolves normally. -/
theorem c7_empty_response_delayed_repoll (c : Consumer)
    (handler : Message → HandlerBehavior) (deleteResult : Message → Option JsError) :
    handleQueueServiceResponse c handler deleteResult (FetchResult.success []) =
      ([Action.emit "No messages availabe to be processed" [],
        Action.schedulePoll (c.pollDelaySeconds * 500)], none) ∧
    (handleQueueServiceResponse c handler deleteResult (FetchResult.success [])).1.all
      (fun a => !(Action.isHandlerCall a || Action.isDeleteCall a)) = true ∧
    Action.pollNow ∉
      (handleQueueServiceResponse c handler deleteResult (FetchResult.success [])).1 := by
  refine ⟨rfl, rfl, ?_⟩
  simp [handleQueueServiceResponse]

/-- C7 witness: the theorem applied to the concrete running consumer, whose
poll delay is the default 1 second, giving a scheduled delay of 500 ms. -/
theorem c7_witness :
    handleQueueServiceResponse runningConsumer alwaysOk deleteOk (FetchResult.success []) =
      ([Action.emit "No messages availabe to be processed" [],
        Action.schedulePoll (runningConsumer.pollDelaySeconds * 500)], none) ∧
    (handleQueueServiceResponse runningConsumer alwaysOk deleteOk
        (FetchResult.success [])).1.all
      (fun a => !(Action.isHandlerCall a || Action.isDeleteCall a)) = true ∧
    Action.pollNow ∉
      (handleQueueServiceResponse runningConsumer alwaysOk deleteOk
        (FetchResult.success [])).1 :=
  c7_empty_response_delayed_repoll runningConsumer alwaysOk deleteOk

/-- C10: error classification is by string equality of the error's `name`
with "QueueServiceError": a handler that throws an error so named makes
`_processMessage` emit an `error` event (queue-service classification)
carrying that error and the message, with no `processing_error`; and
`_handleError` emits `error` exactly for so-named errors and
`processing_error` for all others. -/
theorem c10_classification_by_error_name
    (handler : Message → HandlerBehavior) (deleteResult : Message → Option JsError)
    (m mA : Message) (e eA : JsError)
    (hraise : handler m = HandlerBehavior.raise e)
    (hname : e.name = "QueueServiceError")
    (hother : eA.name ≠ "QueueServiceError") :
    processMessage handler deleteResult m =
      ([Action.emit "message_received" [Arg.msg m], Action.handlerCall m,
        Action.emit "error" [Arg.err e, Arg.msg m]], some e) ∧
    (processMessage handler deleteResult m).1.all
      (fun a => !(Action.isEmitNamed "processing_error" a)) = true ∧
    handleError e mA = [Action.emit "error" [Arg.err e, Arg.msg mA]] ∧
    handleError eA mA = [Action.emit "processing_error" [Arg.err eA, Arg.msg mA]] := by
  refine ⟨?_, ?_, ?_, ?_⟩ <;>
    simp [processMessage, hraise, handleError, hname, hother, Action.isEmitNamed]

/-- C10 witness: the theorem applied to the concrete handler throwing the
"QueueServiceError"-named `qseNamedError` on `msgA`, with `plainError` as
the differently-named error. -/
theorem c10_witness :
    processMessage raiseQseNamed deleteOk msgA =
      ([Action.emit "message_received" [Arg.msg msgA], Action.handlerCall msgA,
        Action.emit "error" [Arg.err qseNamedError, Arg.msg msgA]], some qseNamedError) ∧
    (processMessage raiseQseNamed deleteOk msgA).1.all
      (fun a => !(Action.isEmitNamed "processing_error" a)) = true ∧
    handleError qseNamedError msgB =
      [Action.emit "error" [Arg.err qseNamedError, Arg.msg msgB]] ∧
    handleError plainError msgB =
      [Action.emit "processing_error" [Arg.err plainError, Arg.msg msgB]] :=
  c10_classification_by_error_name raiseQseNamed deleteOk msgA msgB qseNamedError
    plainError rfl rfl (by decide)

/-- C5 amended: for a handler that fails either by throwing an error whose
`name` is not "QueueServiceError" or by calling the completion callback
with a non-empty error, `_processMessage` emits exactly `message_received`
followed by `processing_error` carrying the rejection value and the
message; no `message_processed` is emitted and the delete call never
happens. -/
theorem c5_amended_plain_failure_flow
    (handler : Message → HandlerBehavior) (deleteResult : Message → Option JsError)
    (m : Message) (e : JsError)
    (hfail : (handler m = HandlerBehavior.raise e ∧ e.name ≠ "QueueServiceError") ∨
      handler m = HandlerBehavior.doneErr e) :
    processMessage handler deleteResult m =
      ([Action.emit "message_received" [Arg.msg m], Action.handlerCall m,
        Action.emit "processing_error"
          [Arg.err (handlerRejection handler m), Arg.msg m]],
        some (handlerRejection handler m)) ∧
    (processMessage handler deleteResult m).1.all
      (fun a => !(Action.isDeleteCall a)) = true ∧
    (processMessage handler deleteResult m).1.all
      (fun a => !(Action.isEmitNamed "message_processed" a)) = true := by
  rcases hfail with ⟨h1, h2⟩ | h1
  · refine ⟨?_, ?_, ?_⟩ <;>
      simp [processMessage, h1, handleError, h2, handlerRejection, Action.isDeleteCall,
        Action.isEmitNamed]
  · have h2 : (wrapDoneError e).name ≠ "QueueServiceError" := by
      simp [wrapDoneError]
    refine ⟨?_, ?_, ?_⟩ <;>
      simp [processMessage, h1, handleError, h2, handlerRejection, wrapDoneError,
        Action.isDeleteCall, Action.isEmitNamed]

/-- C5 amended witness: the theorem applied to the concrete handler that
throws the plain error `plainError` (whose `name` is "Error") on `msgA`. -/
theorem c5_amended_witness :
    processMessage alwaysRaise deleteOk msgA =
      ([Action.emit "message_received" [Arg.msg msgA], Action.handlerCall msgA,
        Action.emit "processing_error"
          [Arg.err (handlerRejection alwaysRaise msgA), Arg.msg msgA]],
        some (handlerRejection alwaysRaise msgA)) ∧
    (processMessage alwaysRaise deleteOk msgA).1.all
      (fun a => !(Action.isDeleteCall a)) = true ∧
    (processMessage alwaysRaise deleteOk msgA).1.all
      (fun a => !(Action.isEmitNamed "message_processed" a)) = true :=
  c5_amended_plain_failure_flow alwaysRaise deleteOk msgA plainError
    (Or.inl ⟨rfl, by decide⟩)

/-- C9 amended: the batch-size checks of `validate` accept a supplied
numeric batch size exactly when it lies in the inclusive range [1, 30] and
is an integer, and raise nothing when the option is absent. -/
theorem c9_amended_batch_size_bounds (x : ℚ) :
    (validateBatchSize (some x) = none ↔ 1 ≤ x ∧ x ≤ 30 ∧ x.den = 1) ∧
    validateBatchSize none = none := by
  refine ⟨?_, rfl⟩
  show (if 30 < x ∨ x < 1 then some "batchSize must be between 1 and 30."
      else if x ≠ 0 ∧ x.den ≠ 1 then
        some "batchSize must be between 1 and 10 and be a number."
      else none) = none ↔ 1 ≤ x ∧ x ≤ 30 ∧ x.den = 1
  split_ifs with h1 h2
  · refine iff_of_false (by simp) ?_
    rintro ⟨ha, hb, -⟩
    rcases h1 with h | h
    · exact absurd hb (not_le.mpr h)
    · exact absurd ha (not_le.mpr h)
  · refine iff_of_false (by simp) ?_
    rintro ⟨-, -, hd⟩
    exact absurd hd h2.2
  · refine iff_of_true (by simp) ?_
    push_neg at h1
    refine ⟨h1.2, h1.1, ?_⟩
    rcases not_and_or.mp h2 with h | h
    · have hx0 : x = 0 := not_not.mp h
      have h1x : (1 : ℚ) ≤ x := h1.2
      rw [hx0] at h1x
      norm_num at h1x
    · exact not_not.mp h

/-- C9 amended witness: the theorem applied to the concrete batch size 5,
which the checks accept. -/
theorem c9_amended_witness :
    (validateBatchSize (some 5) = none ↔
      1 ≤ (5 : ℚ) ∧ (5 : ℚ) ≤ 30 ∧ (5 : ℚ).den = 1) ∧
    validateBatchSize none = none :=
  c9_amended_batch_size_bounds 5

/-- Helper: an emission is not a handler call. -/
theorem isHandlerCall_emit (n : String) (args : List Arg) :
    Action.isHandlerCall (Action.emit n args) = false := rfl

/-- Helper: a delete call is not a handler call. -/
theorem isHandlerCall_deleteCall (i p : String) :
    Action.isHandlerCall (Action.deleteCall i p) = false := rfl

/-- Helper: a direct poll invocation is not a handler call. -/
theorem isHandlerCall_pollNow : Action.isHandlerCall Action.pollNow = false := rfl

/-- Helper: fetch count distributes over list append. -/
theorem fetchCount_append (a b : List Action) :
    fetchCount (a ++ b) = fetchCount a + fetchCount b := by
  simp [fetchCount, List.filter_append]

/-- Helper: fetch count of a cons. -/
theorem fetchCount_cons (a : Action) (t : List Action) :
    fetchCount (a :: t) = (if Action.isFetch a then 1 else 0) + fetchCount t := by
  by_cases h : Action.isFetch a <;>
    simp [fetchCount, List.filter_cons, h, Nat.add_comm]

/-- Helper: fetch count of the empty trace. -/
theorem fetchCount_nil : fetchCount [] = 0 := rfl

/-- Helper: `_handleError` issues no fetch. -/
theorem fetchCount_handleError (e : JsError) (m : Message) :
    fetchCount (handleError e m) = 0 := by
  rw [handleError]; split_ifs <;> rfl

/-- Helper: the dispatch loop's catch block issues no fetch. -/
theorem fetchCount_catchClause (e : JsError) (m : Message) :
    fetchCount (catchClause e m) = 0 := by
  rw [catchClause]; split_ifs <;> rfl

/-- Helper: `_processMessage` issues no fetch. -/
theorem fetchCount_processMessage (handler : Message → HandlerBehavior)
    (deleteResult : Message → Option JsError) (m : Message) :
    fetchCount (processMessage handler deleteResult m).1 = 0 := by
  cases hh : handler m with
  | raise e =>
      simp [processMessage, hh, fetchCount_append, fetchCount_handleError,
        fetchCount_cons, fetchCount_nil, Action.isFetch]
  | doneErr e =>
      simp [processMessage, hh, fetchCount_append, fetchCount_handleError,
        fetchCount_cons, fetchCount_nil, Action.isFetch]
  | ok =>
      cases hd : deleteResult m with
      | none =>
          simp [processMessage, hh, deleteMessage, hd, fetchCount_append,
            fetchCount_cons, fetchCount_nil, Action.isFetch]
      | some e =>
          simp [processMessage, hh, deleteMessage, hd, fetchCount_append,
            fetchCount_handleError, fetchCount_cons, fetchCount_nil, Action.isFetch]

/-- Helper: the dispatch loop over a batch issues no fetch. -/
theorem fetchCount_dispatchLoop (c : Consumer) (handler : Message → HandlerBehavior)
    (deleteResult : Message → Option JsError) :
    ∀ msgs : List Message, fetchCount (dispatchLoop c handler deleteResult msgs).1 = 0 := by
  intro msgs
  induction msgs with
  | nil => rfl
  | cons m rest ih =>
      cases hmr : c.maximumRetries with
      | none =>
          rcases hpm : processMessage handler deleteResult m with ⟨t, r⟩
          have ht : fetchCount t = 0 := by
            have h := fetchCount_processMessage handler deleteResult m
            rw [hpm] at h; exact h
          simp [dispatchLoop, hmr, hpm, ht]
      | some maxR =>
          rcases hdl : dispatchLoop c handler deleteResult rest with ⟨t2, ex⟩
          have ht2 : fetchCount t2 = 0 := by
            have h := ih
            rw [hdl] at h; exact h
          by_cases hlt : m.dequeueCount < maxR
          · rcases hpm : processMessage handler deleteResult m with ⟨t, r⟩
            have ht : fetchCount t = 0 := by
              have h := fetchCount_processMessage handler deleteResult m
              rw [hpm] at h; exact h
            cases r with
            | none =>
                simp [dispatchLoop, hmr, hlt, hpm, fetchCount_append, ht,
                  fetchCount_cons, fetchCount_nil, Action.isFetch]
            | some e =>
                simp [dispatchLoop, hmr, hlt, hpm, hdl, fetchCount_append, ht, ht2,
                  fetchCount_catchClause]
          · cases hd : deleteResult m with
            | none =>
                simp [dispatchLoop, hmr, hlt, deleteMessage, hd, hdl, logCall,
                  fetchCount_append, ht2, fetchCount_cons, fetchCount_nil,
                  Action.isFetch]
            | some e =>
                simp [dispatchLoop, hmr, hlt, deleteMessage, hd, hdl,
                  fetchCount_append, ht2, fetchCount_catchClause, fetchCount_cons,
                  fetchCount_nil, Action.isFetch]

/-- Helper: `_handleQueueServiceResponse` never issues a fetch directly; all
fetches go through `_poll`, which gates them on the stopped flag. -/
theorem fetchCount_handleQueueServiceResponse (c : Consumer)
    (handler : Message → HandlerBehavior) (deleteResult : Message → Option JsError)
    (fr : FetchResult) :
    fetchCount (handleQueueServiceResponse c handler deleteResult fr).1 = 0 := by
  cases fr with
  | failure e =>
      simp only [handleQueueServiceResponse]
      split_ifs <;>
        simp [fetchCount_cons, fetchCount_nil, Action.isFetch]
  | success msgs =>
      cases msgs with
      | nil => rfl
      | cons m rest =>
          rcases hdl : dispatchLoop c handler deleteResult (m :: rest) with ⟨t, ex⟩
          have ht : fetchCount t = 0 := by
            have h := fetchCount_dispatchLoop c handler deleteResult (m :: rest)
            rw [hdl] at h; exact h
          cases ex with
          | finished =>
              simp [handleQueueServiceResponse, hdl, fetchCount_append, ht,
                fetchCount_cons, fetchCount_nil, Action.isFetch]
          | earlyReturn r =>
              simp [handleQueueServiceResponse, hdl, ht]

/-- C8: the stop flag gates every fetch.  Starting a stopped consumer issues
exactly one fetch; `stop` emits `stopped` on its own invocation and sets the
flag; a poll cycle entered with the flag set emits `stopped` and issues no
fetch; `start` on a running consumer is a no-op; and the response handler
itself never issues a fetch — so after `stop()` flips the flag (and absent a
new `start()`), no poll continuation can ever fetch again. -/
theorem c8_stop_gates_every_fetch (c0 c1 c2 : Consumer)
    (handler : Message → HandlerBehavior) (deleteResult : Message → Option JsError)
    (fr : FetchResult)
    (h0 : c0.stopped = true) (h1 : c1.stopped = false) (h2 : c2.stopped = true) :
    fetchCount (start c0).2.1 = 1 ∧
    (stop (start c0).1).2 = [Action.emit "stopped" []] ∧
    (stop (start c0).1).1.stopped = true ∧
    poll c2 = ({ c2 with isWaiting := true }, [Action.emit "stopped" []], false) ∧
    start c1 = (c1, [], false) ∧
    fetchCount (handleQueueServiceResponse c0 handler deleteResult fr).1 = 0 := by
  refine ⟨?_, rfl, rfl, ?_, ?_,
    fetchCount_handleQueueServiceResponse c0 handler deleteResult fr⟩
  · simp [start, h0, poll, logCall, fetchCount_cons, Action.isFetch, fetchCount]
  · simp [poll, h2]
  · simp [start, h1]

/-- C8 witness: the theorem applied to a freshly constructed (stopped)
consumer, the running consumer, and an empty-batch fetch result. -/
theorem c8_witness :
    fetchCount (start stoppedConsumer).2.1 = 1 ∧
    (stop (start stoppedConsumer).1).2 = [Action.emit "stopped" []] ∧
    (stop (start stoppedConsumer).1).1.stopped = true ∧
    poll stoppedConsumer =
      ({ stoppedConsumer with isWaiting := true }, [Action.emit "stopped" []], false) ∧
    start runningConsumer = (runningConsumer, [], false) ∧
    fetchCount (handleQueueServiceResponse stoppedConsumer alwaysOk deleteOk
      (FetchResult.success [])).1 = 0 :=
  c8_stop_gates_every_fetch stoppedConsumer runningConsumer stoppedConsumer alwaysOk
    deleteOk (FetchResult.success []) rfl rfl rfl

/-- Helper: over a batch in which every message's dequeue count has reached
the configured retry budget, the dispatch loop never reaches a `return`
statement: it takes the discard (or delete-failure catch) branch for every
message, so the handler is never invoked, each message gets exactly one
delete call in order, each message whose delete succeeds gets its
`delete_failed_message` emission, and the loop finishes the whole batch. -/
theorem dispatchLoop_exhausted (c : Consumer) (handler : Message → HandlerBehavior)
    (deleteResult : Message → Option JsError) (maxR : Nat)
    (hset : c.maximumRetries = some maxR) :
    ∀ msgs : List Message, (∀ m ∈ msgs, maxR ≤ m.dequeueCount) →
      ((dispatchLoop c handler deleteResult msgs).1.all
          (fun a => !(Action.isHandlerCall a)) = true) ∧
      ((dispatchLoop c handler deleteResult msgs).1.filter Action.isDeleteCall =
        msgs.map (fun m => Action.deleteCall m.messageId m.popReceipt)) ∧
      (∀ m0 ∈ msgs, deleteResult m0 = none →
        Action.emit "delete_failed_message" [Arg.str (discardReason m0)] ∈
          (dispatchLoop c handler deleteResult msgs).1) ∧
      (dispatchLoop c handler deleteResult msgs).2 = LoopExit.finished := by
  intro msgs
  induction msgs with
  | nil =>
      intro _
      refine ⟨rfl, rfl, ?_, rfl⟩
      intro m0 hm0
      exact absurd hm0 (List.not_mem_nil m0)
  | cons m rest ih =>
      intro hex
      have hmle : maxR ≤ m.dequeueCount := hex m (List.mem_cons_self m rest)
      have hrest : ∀ m2 ∈ rest, maxR ≤ m2.dequeueCount :=
        fun m2 h => hex m2 (List.mem_cons_of_mem m h)
      obtain ⟨ih1, ih2, ih3, ih4⟩ := ih hrest
      have hlt : ¬ (m.dequeueCount < maxR) := not_lt.mpr hmle
      rcases hdl : dispatchLoop c handler deleteResult rest with ⟨t2, ex⟩
      rw [hdl] at ih1 ih2 ih3 ih4
      have ih1x : ∀ x ∈ t2, Action.isHandlerCall x = false := by
        intro x hx
        have h := List.all_eq_true.mp ih1 x hx
        simpa using h
      cases hd : deleteResult m with
      | none =>
          refine ⟨?_, ?_, ?_, ?_⟩
          · simp [dispatchLoop, hset, hlt, deleteMessage, hd, hdl, logCall,
              isHandlerCall_emit, isHandlerCall_deleteCall, isHandlerCall_pollNow]
            exact ih1x
          · simp [dispatchLoop, hset, hlt, deleteMessage, hd, hdl, logCall,
              Action.isDeleteCall, List.filter_append, ih2]
          · intro m0 hm0 hdel0
            rcases List.mem_cons.mp hm0 with rfl | hm0r
            · simp [dispatchLoop, hset, hlt, deleteMessage, hd, hdl, logCall]
            · have hmem := ih3 m0 hm0r hdel0
              simp [dispatchLoop, hset, hlt, deleteMessage, hd, hdl, logCall, hmem]
          · simp [dispatchLoop, hset, hlt, deleteMessage, hd, hdl]
            exact ih4
      | some e =>
          refine ⟨?_, ?_, ?_, ?_⟩
          · simp [dispatchLoop, hset, hlt, deleteMessage, hd, hdl, catchClause,
              QueueServiceError, isHandlerCall_emit, isHandlerCall_deleteCall,
              isHandlerCall_pollNow]
            exact ih1x
          · simp [dispatchLoop, hset, hlt, deleteMessage, hd, hdl, catchClause,
              QueueServiceError, Action.isDeleteCall, List.filter_append, ih2]
          · intro m0 hm0 hdel0
            rcases List.mem_cons.mp hm0 with rfl | hm0r
            · rw [hd] at hdel0
              exact Option.noConfusion hdel0
            · have hmem := ih3 m0 hm0r hdel0
              simp [dispatchLoop, hset, hlt, deleteMessage, hd, hdl, catchClause,
                QueueServiceError, hmem]
          · simp [dispatchLoop, hset, hlt, deleteMessage, hd, hdl]
            exact ih4

/-- C3 amended: for a fetched batch in which `maximumRetries` is configured
and every message's dequeue count has reached or exceeded it, the response
handler never invokes the user handler, calls delete exactly once per
message (in order), and for each such message whose delete succeeds emits a
`delete_failed_message` discard notification carrying the reason string
(which names the dequeue count) — but not the message object. -/
theorem c3_amended_exhausted_discard (c : Consumer) (handler : Message → HandlerBehavior)
    (deleteResult : Message → Option JsError) (maxR : Nat)
    (mfirst m0 : Message) (mrest : List Message)
    (hset : c.maximumRetries = some maxR)
    (hex : ∀ m ∈ mfirst :: mrest, maxR ≤ m.dequeueCount)
    (hm0 : m0 ∈ mfirst :: mrest) (hdel0 : deleteResult m0 = none) :
    ((handleQueueServiceResponse c handler deleteResult
        (FetchResult.success (mfirst :: mrest))).1.all
      (fun a => !(Action.isHandlerCall a)) = true) ∧
    ((handleQueueServiceResponse c handler deleteResult
        (FetchResult.success (mfirst :: mrest))).1.filter Action.isDeleteCall =
      (mfirst :: mrest).map (fun m => Action.deleteCall m.messageId m.popReceipt)) ∧
    Action.emit "delete_failed_message" [Arg.str (discardReason m0)] ∈
      (handleQueueServiceResponse c handler deleteResult
        (FetchResult.success (mfirst :: mrest))).1 := by
  obtain ⟨h1, h2, h3, h4⟩ :=
    dispatchLoop_exhausted c handler deleteResult maxR hset (mfirst :: mrest) hex
  rcases hdl : dispatchLoop c handler deleteResult (mfirst :: mrest) with ⟨t, ex⟩
  rw [hdl] at h1 h2 h4
  have hm := h3 m0 hm0 hdel0
  rw [hdl] at hm
  have hexfin : ex = LoopExit.finished := h4
  subst hexfin
  have h1x : ∀ x ∈ t, Action.isHandlerCall x = false := by
    intro x hx
    have h := List.all_eq_true.mp h1 x hx
    simpa using h
  refine ⟨?_, ?_, ?_⟩
  · simp [handleQueueServiceResponse, hdl, isHandlerCall_emit, isHandlerCall_pollNow]
    exact h1x
  · simp [handleQueueServiceResponse, hdl, List.filter_append, Action.isDeleteCall, h2]
  · have hmem : Action.emit "delete_failed_message" [Arg.str (discardReason m0)] ∈
        t ++ [Action.emit "response_processed" [], Action.pollNow] :=
      List.mem_append.mpr (Or.inl hm)
    simpa [handleQueueServiceResponse, hdl] using hmem

/-- C3 amended witness: the theorem applied to the retry consumer
(budget 2) and a single-message batch holding the exhausted message `msgC`
(dequeue count 3) whose delete succeeds. -/
theorem c3_amended_witness :
    ((handleQueueServiceResponse retryConsumer alwaysOk deleteOk
        (FetchResult.success [msgC])).1.all
      (fun a => !(Action.isHandlerCall a)) = true) ∧
    ((handleQueueServiceResponse retryConsumer alwaysOk deleteOk
        (FetchResult.success [msgC])).1.filter Action.isDeleteCall =
      [msgC].map (fun m => Action.deleteCall m.messageId m.popReceipt)) ∧
    Action.emit "delete_failed_message" [Arg.str (discardReason msgC)] ∈
      (handleQueueServiceResponse retryConsumer alwaysOk deleteOk
        (FetchResult.success [msgC])).1 :=
  c3_amended_exhausted_discard retryConsumer alwaysOk deleteOk 2 msgC msgC []
    rfl (by decide) (by decide) rfl

end AzureQueueSubscriber
